import Mathlib

/-!
Verification of the gh-myprs terminal tool (Go) against its
natural-language specification, via a shallow embedding in Lean 4.

The repository contains two variants of the program:
  * `src/main.go` — sequential variant (namespace `V1` below);
  * `src/unnamed/part_001` — concurrent variant (namespace `V2` below).

Strings are modelled as Lean `String` (a list of Unicode scalar values,
matching Go's rune decoding of valid UTF-8).  Go `int` widths are
modelled as `Int`.  Go's `strings.Repeat`, which panics on a negative
count, is modelled by `goRepeat` returning `none` in that case, so any
function that can panic returns an `Option`.  Terminal output is
modelled as a trace of `Event`s; the colour styling applied by the
`fatih/color` handles does not affect which rows/headers are printed and
is not modelled.
-/

/-- Membership of a code point in the principal East-Asian
double-width ranges.  Models the `doublewidth` table used by
`go-runewidth`'s `RuneWidth` (the library called by both variants'
`truncateString`). -/
def isDoubleWidth (r : Nat) : Bool :=
  (0x1100 ≤ r && r ≤ 0x115F) || (0x2E80 ≤ r && r ≤ 0x303E) ||
  (0x3041 ≤ r && r ≤ 0x33FF) || (0x3400 ≤ r && r ≤ 0x4DBF) ||
  (0x4E00 ≤ r && r ≤ 0x9FFF) || (0xA000 ≤ r && r ≤ 0xA4CF) ||
  (0xAC00 ≤ r && r ≤ 0xD7A3) || (0xF900 ≤ r && r ≤ 0xFAFF) ||
  (0xFE30 ≤ r && r ≤ 0xFE4F) || (0xFF00 ≤ r && r ≤ 0xFF60) ||
  (0xFFE0 ≤ r && r ≤ 0xFFE6) || (0x1F300 ≤ r && r ≤ 0x1F64F) ||
  (0x1F900 ≤ r && r ≤ 0x1F9FF) || (0x20000 ≤ r && r ≤ 0x2FFFD) ||
  (0x30000 ≤ r && r ≤ 0x3FFFD)

/-- Membership in the principal zero-width combining-mark ranges of
`go-runewidth`'s `combining` table. -/
def isCombining (r : Nat) : Bool :=
  (0x300 ≤ r && r ≤ 0x36F) || (0x1AB0 ≤ r && r ≤ 0x1AFF) ||
  (0x20D0 ≤ r && r ≤ 0x20FF) || (0xFE20 ≤ r && r ≤ 0xFE2F)

/-- Display width of one rune.  Models `runewidth.RuneWidth` with the
default (non-East-Asian-context) condition: control characters and
combining marks are width 0, the East-Asian wide/fullwidth ranges are
width 2, everything else is width 1. -/
def runeWidth (c : Char) : Nat :=
  let r := c.toNat
  if r < 0x20 then 0
  else if 0x7F ≤ r && r ≤ 0x9F then 0
  else if r = 0xAD then 0
  else if r < 0x300 then 1
  else if isCombining r then 0
  else if isDoubleWidth r then 2
  else 1

/-- Sum of per-rune display widths of a list of runes. -/
def charsWidth (cs : List Char) : Nat :=
  (cs.map runeWidth).sum

/-- Display width of a string: the sum of its per-rune East-Asian
widths.  Models `runewidth.StringWidth`. -/
def stringWidth (s : String) : Nat :=
  charsWidth s.data

/-- Models Go's `strings.Repeat(string(c), n)` with an `int` count:
Go panics when the count is negative, modelled here as `none`. -/
def goRepeat (c : Char) (n : Int) : Option String :=
  if n < 0 then none else some ⟨List.replicate n.toNat c⟩

/-- A GitHub issue as used by the program: `Title`, `HTMLURL` and
`UpdatedAt` from `github.Issue`.  The two string fields are pointers in
Go (`*string`), modelled as `Option String`; `UpdatedAt` is a timestamp,
modelled as an integer. -/
structure Issue where
  title : Option String
  url : Option String
  updatedAt : Int
deriving DecidableEq

/-- Models `github.IssuesSearchResult` (the `Issues` field). -/
structure IssuesSearchResult where
  issues : List Issue
deriving DecidableEq

/-- Models `github.User` (the `Login *string` field). -/
structure User where
  login : Option String
deriving DecidableEq

/-- Models `context.Context` as far as the program can observe it: has
the deadline already expired / the context been cancelled? -/
structure Context where
  deadlineExpired : Bool
deriving DecidableEq

/-- One element of terminal output, in print order.  `row` carries the
title and updated columns as formatted by `truncateString` (hence
`Option String`: the formatting can in principle panic) and the raw URL
column. -/
inductive Event where
  | sectionHeader (icon : String) (label : String) (account : String)
  | noResults
  | tableHeader
  | row (title : Option String) (updated : Option String) (url : String)
  | blank
deriving DecidableEq

/-- The labels of the section-header events of a trace, in order: which
categories' tables were printed, and in which order. -/
def sectionLabels : List Event → List String
  | [] => []
  | Event.sectionHeader _ label _ :: rest => label :: sectionLabels rest
  | _ :: rest => sectionLabels rest

namespace V1

/-! Sequential variant, `src/main.go`. -/

def PRTypeCreated : String := "created"
def PRTypeRequested : String := "requested"

def titleWidth : Int := 33
def updatedWidth : Int := 17
def columnSpacing : Int := 2
def lineWidth : Int := 80

def createdIcon : String := "🔨"
def requestedIcon : String := "👀"

/-- The `for _, r := range s` accumulation loop of `truncateString`:
greedily collect runes while the running width plus the width of the
next rune plus 3 (reserved for the ellipsis) stays within `length`;
`break` at the first rune that would overflow. -/
def truncLoop (length : Int) : List Char → Int → List Char
  | [], _ => []
  | r :: rs, width =>
    let w : Int := runeWidth r
    if width + w + 3 > length then []
    else r :: truncLoop length rs (width + w)

/-- Models `truncateString(s string, length int) string` of
`src/main.go`: pad with spaces when the string fits, otherwise take the
greedy rune prefix, append `"..."`, and pad to the target.  The final
`strings.Repeat` panics (here: `none`) when its count is negative. -/
def truncateString (s : String) (length : Int) : Option String :=
  let width : Int := stringWidth s
  if width ≤ length then
    (goRepeat ' ' (length - width)).map (fun pad => s ++ pad)
  else
    let truncated := truncLoop length s.data 0
    let result : String := ⟨truncated⟩ ++ "..."
    let resultWidth : Int := stringWidth result
    (goRepeat ' ' (length - resultWidth)).map (fun pad => result ++ pad)

/-- Models `getAccountName(client)`: the argument is the outcome of the
client's `Get("user", &user)` call; an error is wrapped, a `nil` login
is rejected, otherwise the login is returned — including when it is the
empty string, which the code does not check. -/
def getAccountName (userResult : Except String User) : Except String String :=
  match userResult with
  | .error e => .error ("failed to get user info: " ++ e)
  | .ok user =>
    match user.login with
    | none => .error "received empty login name from GitHub"
    | some l => .ok l

/-- Models `buildSearchQuery(prType)` on a `PRChecker` whose `account`
field is the first argument. -/
def buildSearchQuery (account prType : String) : Except String String :=
  let baseQuery := "is:open+is:pr+archived:false"
  if prType = PRTypeCreated then .ok (baseQuery ++ "+author:" ++ account)
  else if prType = PRTypeRequested then
    .ok (baseQuery ++ "+user-review-requested:" ++ account)
  else .error ("unsupported PR type: " ++ prType)

/-- Models `searchIssues(prType)`.  `get` is the API client's `Get`
method; the second component of the result is the list of paths passed
to `Get`, recording which network calls were issued. -/
def searchIssues (get : String → Except String IssuesSearchResult)
    (account prType : String) :
    Except String IssuesSearchResult × List String :=
  match buildSearchQuery account prType with
  | .error e => (.error e, [])
  | .ok query =>
    match get ("search/issues?q=" ++ query) with
    | .error e => (.error ("failed to search issues: " ++ e),
                   ["search/issues?q=" ++ query])
    | .ok response => (.ok response, ["search/issues?q=" ++ query])

/-- Models `printSectionHeader(prType)`: prints the icon/label header
for a supported type, errors (printing nothing) otherwise. -/
def printSectionHeader (account prType : String) :
    List Event × Option String :=
  if prType = PRTypeCreated then
    ([Event.sectionHeader createdIcon "Pull Requests Created by" account], none)
  else if prType = PRTypeRequested then
    ([Event.sectionHeader requestedIcon "Review Requests for" account], none)
  else ([], some ("unsupported PR type: " ++ prType))

/-- Models `printIssues(issues)`: one row per issue, in order; on the
first issue whose title or URL pointer is `nil` the function returns
the error before printing that row — rows already printed stay printed.
`relTime` models `text.RelativeTimeAgo(now, ·)`. -/
def printIssues (relTime : Int → String) : List Issue → List Event × Option String
  | [] => ([], none)
  | issue :: rest =>
    match issue.title, issue.url with
    | some t, some u =>
      let ev := Event.row (truncateString t titleWidth)
                          (truncateString (relTime issue.updatedAt) updatedWidth) u
      let (evs, err) := printIssues relTime rest
      (ev :: evs, err)
    | _, _ => ([], some "received invalid issue data from GitHub")

/-- Models `displayResults(issues, prType)`: section header, then either
the no-results notice, or the table header, the rows, and a blank line. -/
def displayResults (relTime : Int → String) (account : String)
    (issues : List Issue) (prType : String) : List Event × Option String :=
  match printSectionHeader account prType with
  | (evs, some e) => (evs, some e)
  | (evs, none) =>
    if issues.length = 0 then (evs ++ [Event.noResults], none)
    else
      match printIssues relTime issues with
      | (revs, some e) => (evs ++ [Event.tableHeader] ++ revs, some e)
      | (revs, none) => (evs ++ [Event.tableHeader] ++ revs ++ [Event.blank], none)

/-- Models `processAndDisplayPRs(prType)`: search, then display. -/
def processAndDisplayPRs (get : String → Except String IssuesSearchResult)
    (relTime : Int → String) (account prType : String) :
    List Event × Option String :=
  match (searchIssues get account prType).1 with
  | .error e => ([], some e)
  | .ok response => displayResults relTime account response.issues prType

/-- The `for _, prType := range prTypes` loop of `Run`: process each
type in order, stopping at (and wrapping) the first error. -/
def runLoop (get : String → Except String IssuesSearchResult)
    (relTime : Int → String) (account : String) :
    List String → List Event × Option String
  | [] => ([], none)
  | prType :: rest =>
    match processAndDisplayPRs get relTime account prType with
    | (evs, some e) =>
      (evs, some ("error processing " ++ prType ++ " PRs: " ++ e))
    | (evs, none) =>
      let (evs2, err) := runLoop get relTime account rest
      (evs ++ evs2, err)

/-- Models `Run()` of `src/main.go`: the fixed type list is processed
sequentially, created first.  A `some` error means the process exits
non-zero (`log.Fatal` in `main`). -/
def Run (get : String → Except String IssuesSearchResult)
    (relTime : Int → String) (account : String) : List Event × Option String :=
  runLoop get relTime account [PRTypeCreated, PRTypeRequested]

end V1

namespace V2

/-! Concurrent variant, `src/unnamed/part_001`. -/

def categoryCreated : String := "created"
def categoryReviewer : String := "requested"

def maxTitleLength : Int := 33
def maxUpdateLength : Int := 17
def columnPadding : Int := 2
def displayWidth : Int := 80

def iconCreated : String := "🔨"
def iconReviewer : String := "👀"

/-- Result of one asynchronous fetch as sent over the `results`
channel: models `AsyncPRResult`. -/
structure AsyncPRResult where
  issues : List Issue
  category : String
  error : Option String
deriving DecidableEq

/-- Models `githubRESTClient.Get(ctx, path, response)`: the body is
`return c.client.Get(path, response)` — the context argument is
discarded, so the underlying call (`underlying`) proceeds and its
result is returned whatever the state of `ctx`. -/
def githubRESTClientGet {α : Type} (underlying : String → Except String α)
    (_ctx : Context) (path : String) : Except String α :=
  underlying path

/-- Models `fetchGitHubUsername(client)`: the argument is the outcome
of `client.Get(ctx, "user", &user)`; a `nil` login is rejected, a
present login — empty or not — is returned. -/
def fetchGitHubUsername (userResult : Except String User) : Except String String :=
  match userResult with
  | .error e => .error ("failed to fetch user info: " ++ e)
  | .ok user =>
    match user.login with
    | none => .error "received empty username from GitHub"
    | some l => .ok l

/-- Models `buildSearchQuery(category)` on a `PRChecker` whose
`username` field is the first argument. -/
def buildSearchQuery (username category : String) : Except String String :=
  let baseQuery := "is:open+is:pr+archived:false"
  if category = categoryCreated then .ok (baseQuery ++ "+author:" ++ username)
  else if category = categoryReviewer then
    .ok (baseQuery ++ "+user-review-requested:" ++ username)
  else .error ("unsupported PR category: " ++ category)

/-- Models `fetchPullRequests(ctx, category)`.  `get` is the
`GitHubClient.Get` method (which receives the context); the second
component records the paths passed to `Get`. -/
def fetchPullRequests (get : Context → String → Except String IssuesSearchResult)
    (ctx : Context) (username category : String) :
    Except String IssuesSearchResult × List String :=
  match buildSearchQuery username category with
  | .error e => (.error e, [])
  | .ok query =>
    match get ctx ("search/issues?q=" ++ query) with
    | .error e => (.error ("failed to fetch pull requests: " ++ e),
                   ["search/issues?q=" ++ query])
    | .ok response => (.ok response, ["search/issues?q=" ++ query])

/-- The rune-accumulation loop of `truncateString` in
`src/unnamed/part_001`; same structure as `V1.truncLoop`. -/
def truncLoop (maxLength : Int) : List Char → Int → List Char
  | [], _ => []
  | r :: rs, width =>
    let w : Int := runeWidth r
    if width + w + 3 > maxLength then []
    else r :: truncLoop maxLength rs (width + w)

/-- Models `truncateString(s string, maxLength int) string` of
`src/unnamed/part_001`. -/
def truncateString (s : String) (maxLength : Int) : Option String :=
  let width : Int := stringWidth s
  if width ≤ maxLength then
    (goRepeat ' ' (maxLength - width)).map (fun pad => s ++ pad)
  else
    let truncated := truncLoop maxLength s.data 0
    let result : String := ⟨truncated⟩ ++ "..."
    let resultWidth : Int := stringWidth result
    (goRepeat ' ' (maxLength - resultWidth)).map (fun pad => result ++ pad)

/-- Models `displaySectionHeader(category)`. -/
def displaySectionHeader (username category : String) :
    List Event × Option String :=
  if category = categoryCreated then
    ([Event.sectionHeader iconCreated "Pull Requests Created by" username], none)
  else if category = categoryReviewer then
    ([Event.sectionHeader iconReviewer "Review Requests for" username], none)
  else ([], some ("unsupported PR category: " ++ category))

/-- Models `displayIssues(issues)`; same structure as `V1.printIssues`. -/
def displayIssues (relTime : Int → String) : List Issue → List Event × Option String
  | [] => ([], none)
  | issue :: rest =>
    match issue.title, issue.url with
    | some t, some u =>
      let ev := Event.row (truncateString t maxTitleLength)
                          (truncateString (relTime issue.updatedAt) maxUpdateLength) u
      let (evs, err) := displayIssues relTime rest
      (ev :: evs, err)
    | _, _ => ([], some "received invalid issue data from GitHub")

/-- Models `displayPullRequests(issues, category)`. -/
def displayPullRequests (relTime : Int → String) (username : String)
    (issues : List Issue) (category : String) : List Event × Option String :=
  match displaySectionHeader username category with
  | (evs, some e) => (evs, some e)
  | (evs, none) =>
    if issues.length = 0 then (evs ++ [Event.noResults], none)
    else
      match displayIssues relTime issues with
      | (revs, some e) => (evs ++ [Event.tableHeader] ++ revs, some e)
      | (revs, none) => (evs ++ [Event.tableHeader] ++ revs ++ [Event.blank], none)

/-- Models the `for result := range results` consumption loop of
`Run()` in `src/unnamed/part_001`.  The two fetch goroutines send their
`AsyncPRResult`s into a buffered channel in whatever order the
scheduler completes them, so the channel receive order `arrival` — a
permutation of the per-category results — is a parameter.  Each result
is handled strictly in arrival order: a fetch error aborts the run
(non-zero exit via `log.Fatal`); otherwise the category's table is
rendered immediately. -/
def Run (relTime : Int → String) (username : String) :
    List AsyncPRResult → List Event × Option String
  | [] => ([], none)
  | r :: rest =>
    match r.error with
    | some e => ([], some ("error fetching " ++ r.category ++ " PRs: " ++ e))
    | none =>
      match displayPullRequests relTime username r.issues r.category with
      | (evs, some e) => (evs, some e)
      | (evs, none) =>
        let (evs2, err) := Run relTime username rest
        (evs ++ evs2, err)

end V2

/-- Statement helper: the section-header label the program uses for a
category (`"created"` ↦ its created label, anything else ↦ the review
label). -/
def labelOf (category : String) : String :=
  if category = "created" then "Pull Requests Created by"
  else "Review Requests for"

/-- Statement helper: the row event `printIssues`/`displayIssues` emits
for a valid issue (one whose `title` and `url` are present). -/
def rowEvent (relTime : Int → String) (i : Issue) : Event :=
  Event.row (V1.truncateString (i.title.getD "") V1.titleWidth)
            (V1.truncateString (relTime i.updatedAt) V1.updatedWidth)
            (i.url.getD "")

/-- A concrete API client for counterexamples: the created-category
search succeeds with one valid issue, every other path fails. -/
def getCex : String → Except String IssuesSearchResult := fun path =>
  if path = "search/issues?q=is:open+is:pr+archived:false+author:alice" then
    .ok ⟨[⟨some "Test PR", some "https://example.com/pull/1", 0⟩]⟩
  else .error "boom"

/-- A concrete relative-time formatter for closed statements. -/
def relTime0 : Int → String := fun _ => "about 3 days ago"

/-- A concrete channel arrival order for counterexamples: the
review-requested fetch completes first, the created fetch second, both
successful with no issues. -/
def arrivalCex : List V2.AsyncPRResult :=
  [⟨[], "requested", none⟩, ⟨[], "created", none⟩]

/-- A concrete channel arrival order for counterexamples: the created
fetch completes first with one valid issue, then the review-requested
fetch reports a failure. -/
def arrivalCex2 : List V2.AsyncPRResult :=
  [⟨[⟨some "Test PR", some "https://example.com/pull/1", 0⟩], "created", none⟩,
   ⟨[], "requested", some "boom"⟩]

/-!  Validation of the embedding against the repository's own unit
tests (`TestTruncateString`, `TestBuildSearchQuery`). -/

example : V1.truncateString "short" 10 = some "short     " := by decide
example : V1.truncateString "exactly10c" 10 = some "exactly10c" := by decide
example : V1.truncateString "this is a very long string" 10 = some "this is..." := by
  decide
example : V1.truncateString "こんにちは世界" 10 = some "こんに... " := by decide
example : V1.buildSearchQuery "testuser" V1.PRTypeCreated =
    .ok "is:open+is:pr+archived:false+author:testuser" := rfl
example : V1.buildSearchQuery "testuser" V1.PRTypeRequested =
    .ok "is:open+is:pr+archived:false+user-review-requested:testuser" := rfl
example : (V1.buildSearchQuery "testuser" "invalid").isOk = false := by decide

/-! Width arithmetic lemmas. -/

theorem string_data_append (s t : String) : (s ++ t).data = s.data ++ t.data := by
  cases s; cases t; rfl

theorem charsWidth_append (a b : List Char) :
    charsWidth (a ++ b) = charsWidth a + charsWidth b := by
  simp [charsWidth]

theorem stringWidth_append (s t : String) :
    stringWidth (s ++ t) = stringWidth s + stringWidth t := by
  simp [stringWidth, string_data_append, charsWidth_append]

theorem runeWidth_space : runeWidth ' ' = 1 := rfl

theorem charsWidth_replicate_space (n : Nat) :
    charsWidth (List.replicate n ' ') = n := by
  simp [charsWidth, List.map_replicate, List.sum_replicate, smul_eq_mul,
    runeWidth_space]

theorem stringWidth_dots : stringWidth "..." = 3 := rfl

/-- The greedy loop keeps the accumulated width plus the 3 ellipsis
columns within the target: if the running width `width` satisfies
`width + 3 ≤ W` on entry, the runes it collects add at most
`W - width - 3` columns. -/
theorem truncLoop_width_le (W : Int) :
    ∀ (cs : List Char) (width : Int), width + 3 ≤ W →
      (charsWidth (V1.truncLoop W cs width) : Int) + width + 3 ≤ W
  | [], width, h => by
    simp only [V1.truncLoop, charsWidth, List.map_nil, List.sum_nil]
    omega
  | r :: rs, width, h => by
    simp only [V1.truncLoop]
    split
    · simp only [charsWidth, List.map_nil, List.sum_nil]
      omega
    · rename_i hle
      have ih := truncLoop_width_le W rs (width + (runeWidth r : Int)) (by omega)
      simp only [charsWidth, List.map_cons, List.sum_cons] at ih ⊢
      push_cast at ih ⊢
      omega

/-- Full characterisation of `V1.truncateString` whenever the string
fits or the target width is at least 3: the call succeeds and returns a
string of display width exactly `W`, by right-padding when the string
fits and by greedy truncation plus `"..."` plus right-padding when it
does not. -/
theorem truncateString_spec (s : String) (W : Int)
    (h : (stringWidth s : Int) ≤ W ∨ 3 ≤ W) :
    ∃ t, V1.truncateString s W = some t ∧ (stringWidth t : Int) = W ∧
      ((stringWidth s : Int) ≤ W →
        t = s ++ (⟨List.replicate (W - (stringWidth s : Int)).toNat ' '⟩ : String)) ∧
      (W < (stringWidth s : Int) →
        t = ((⟨V1.truncLoop W s.data 0⟩ : String) ++ "...") ++
          (⟨List.replicate
              (W - (stringWidth ((⟨V1.truncLoop W s.data 0⟩ : String) ++ "...") : Int)).toNat
              ' '⟩ : String)) := by
  by_cases hfit : (stringWidth s : Int) ≤ W
  · refine ⟨s ++ (⟨List.replicate (W - (stringWidth s : Int)).toNat ' '⟩ : String),
      ?_, ?_, fun _ => rfl, fun hc => absurd hfit (by omega)⟩
    · unfold V1.truncateString
      rw [if_pos hfit]
      unfold goRepeat
      rw [if_neg (by omega)]
      rfl
    · rw [stringWidth_append]
      show ((stringWidth s + charsWidth (List.replicate (W - (stringWidth s : Int)).toNat ' ') : Nat) : Int) = W
      rw [charsWidth_replicate_space]
      push_cast
      omega
  · push_neg at hfit
    have h3 : (3 : Int) ≤ W := by
      rcases h with h | h
      · omega
      · exact h
    have hbound := truncLoop_width_le W s.data 0 (by omega)
    have hrw : (stringWidth ((⟨V1.truncLoop W s.data 0⟩ : String) ++ "...") : Int)
        = (charsWidth (V1.truncLoop W s.data 0) : Int) + 3 := by
      rw [stringWidth_append, stringWidth_dots]
      push_cast
      rfl
    refine ⟨((⟨V1.truncLoop W s.data 0⟩ : String) ++ "...") ++
      (⟨List.replicate
          (W - (stringWidth ((⟨V1.truncLoop W s.data 0⟩ : String) ++ "...") : Int)).toNat
          ' '⟩ : String), ?_, ?_, fun hc => absurd hc (by omega), fun _ => rfl⟩
    · simp only [V1.truncateString, goRepeat]
      rw [if_neg (by omega)]
      rw [if_neg (show ¬(W - (stringWidth ((⟨V1.truncLoop W s.data 0⟩ : String) ++ "...") : Int) < 0) by
        rw [hrw]; omega)]
      rfl
    · have hpad : stringWidth (⟨List.replicate
          (W - (stringWidth ((⟨V1.truncLoop W s.data 0⟩ : String) ++ "...") : Int)).toNat ' '⟩ : String)
          = (W - (stringWidth ((⟨V1.truncLoop W s.data 0⟩ : String) ++ "...") : Int)).toNat := by
        show charsWidth (List.replicate _ ' ') = _
        exact charsWidth_replicate_space _
      rw [stringWidth_append, hpad]
      push_cast
      omega

/-- C1: for every string `s` and target width `W ≥ 4`, `truncateString
s W` returns a string whose display width — the sum of per-rune
East-Asian widths — is exactly `W`: `s` right-padded with spaces when
`displayWidth s ≤ W`, and the greedy codepoint prefix plus `"..."`
plus right padding when `displayWidth s > W`. -/
theorem c1_truncateString_exact_width (s : String) (W : Int) (hW : 4 ≤ W) :
    ∃ t, V1.truncateString s W = some t ∧ (stringWidth t : Int) = W ∧
      ((stringWidth s : Int) ≤ W →
        t = s ++ (⟨List.replicate (W - (stringWidth s : Int)).toNat ' '⟩ : String)) ∧
      (W < (stringWidth s : Int) →
        t = ((⟨V1.truncLoop W s.data 0⟩ : String) ++ "...") ++
          (⟨List.replicate
              (W - (stringWidth ((⟨V1.truncLoop W s.data 0⟩ : String) ++ "...") : Int)).toNat
              ' '⟩ : String)) :=
  truncateString_spec s W (Or.inr (by omega))

/-- Witness for C1 at the repository's own unicode test case. -/
theorem c1_witness :
    ∃ t, V1.truncateString "こんにちは世界" 10 = some t ∧
      (stringWidth t : Int) = 10 ∧
      ((stringWidth "こんにちは世界" : Int) ≤ 10 →
        t = "こんにちは世界" ++
          (⟨List.replicate ((10 : Int) - (stringWidth "こんにちは世界" : Int)).toNat ' '⟩ : String)) ∧
      ((10 : Int) < (stringWidth "こんにちは世界" : Int) →
        t = ((⟨V1.truncLoop 10 "こんにちは世界".data 0⟩ : String) ++ "...") ++
          (⟨List.replicate
              ((10 : Int) -
                (stringWidth ((⟨V1.truncLoop 10 "こんにちは世界".data 0⟩ : String) ++ "...") : Int)).toNat
              ' '⟩ : String)) :=
  c1_truncateString_exact_width "こんにちは世界" 10 (by omega)

/-- C8 counterexample: for `W = 1` (so `0 ≤ W < 3`) and the two-column
string `"ab"`, the final padding step computes the negative repeat
count `1 - 3 = -2`, on which Go's `strings.Repeat` panics — modelled by
`none`.  The claim's promise that every `W ≥ 0` terminates normally
with exact width `W` is therefore false. -/
theorem c8_counterexample : V1.truncateString "ab" 1 = none := by decide

/-- C8 (amended): `truncateString s W` terminates normally and returns
a string of display width exactly `W` whenever `W ≥ 0` and either the
string already fits (`displayWidth s ≤ W`) or `W` is at least the 3
columns of the ellipsis; when `W < 3` and `displayWidth s > W`, the
space-repeat count is negative and Go panics. -/
theorem c8_truncateString_no_panic (s : String) (W : Int) (_hW : 0 ≤ W)
    (h : (stringWidth s : Int) ≤ W ∨ 3 ≤ W) :
    ∃ t, V1.truncateString s W = some t ∧ (stringWidth t : Int) = W := by
  obtain ⟨t, h1, h2, _, _⟩ := truncateString_spec s W h
  exact ⟨t, h1, h2⟩

/-- Witness for C8 (amended) at the smallest truncating width. -/
theorem c8_witness :
    ∃ t, V1.truncateString "abcdef" 3 = some t ∧ (stringWidth t : Int) = 3 :=
  c8_truncateString_no_panic "abcdef" 3 (by omega) (Or.inr (by omega))

/-! Equivalence of the two source variants. -/

theorem truncLoop_eq (W : Int) :
    ∀ (cs : List Char) (width : Int), V2.truncLoop W cs width = V1.truncLoop W cs width
  | [], _ => rfl
  | r :: rs, width => by
    simp only [V1.truncLoop, V2.truncLoop]
    split
    · rfl
    · rw [truncLoop_eq W rs (width + (runeWidth r : Int))]

theorem truncateString_eq (s : String) (W : Int) :
    V2.truncateString s W = V1.truncateString s W := by
  simp only [V1.truncateString, V2.truncateString, truncLoop_eq]

/-- C9: the pure cores of the two variants agree: `truncateString`
returns the same string in both, and `buildSearchQuery` returns the
same query in both or fails in both (with variant-specific error
text). -/
theorem c9_variants_equivalent :
    (∀ (s : String) (W : Int), V2.truncateString s W = V1.truncateString s W) ∧
    (∀ (account category : String),
      (∃ q, V1.buildSearchQuery account category = .ok q ∧
            V2.buildSearchQuery account category = .ok q) ∨
      (∃ e1 e2, V1.buildSearchQuery account category = .error e1 ∧
                V2.buildSearchQuery account category = .error e2)) := by
  refine ⟨truncateString_eq, fun account category => ?_⟩
  by_cases h1 : category = V1.PRTypeCreated
  · subst h1
    exact Or.inl ⟨_, rfl, rfl⟩
  · by_cases h2 : category = V1.PRTypeRequested
    · subst h2
      exact Or.inl ⟨_, rfl, rfl⟩
    · refine Or.inr ⟨"unsupported PR type: " ++ category,
        "unsupported PR category: " ++ category, ?_, ?_⟩
      · simp only [V1.buildSearchQuery]
        rw [if_neg h1, if_neg h2]
      · simp only [V2.buildSearchQuery]
        rw [if_neg (show ¬(category = V2.categoryCreated) from h1),
            if_neg (show ¬(category = V2.categoryReviewer) from h2)]

/-- C6 counterexample: the category value `"review-requested"` named by
the claim is not a tag the code accepts — both variants fail on it with
the unsupported-category error instead of producing the
`user-review-requested` query (the code's tag for that category is
`"requested"`). -/
theorem c6_counterexample :
    V1.buildSearchQuery "alice" "review-requested" =
      .error "unsupported PR type: review-requested" ∧
    V2.buildSearchQuery "alice" "review-requested" =
      .error "unsupported PR category: review-requested" :=
  ⟨rfl, rfl⟩

/-- C6 (amended): the query builder maps the tag `"created"` to
`is:open+is:pr+archived:false+author:<account>`, the tag `"requested"`
(not `"review-requested"`) to
`is:open+is:pr+archived:false+user-review-requested:<account>`, and
fails with the unsupported-category error on every other value. -/
theorem c6_buildSearchQuery (account category : String)
    (h1 : category ≠ V1.PRTypeCreated) (h2 : category ≠ V1.PRTypeRequested) :
    V1.buildSearchQuery account V1.PRTypeCreated =
      .ok ("is:open+is:pr+archived:false+author:" ++ account) ∧
    V1.buildSearchQuery account V1.PRTypeRequested =
      .ok ("is:open+is:pr+archived:false+user-review-requested:" ++ account) ∧
    V1.buildSearchQuery account category =
      .error ("unsupported PR type: " ++ category) := by
  refine ⟨rfl, rfl, ?_⟩
  simp only [V1.buildSearchQuery]
  rw [if_neg h1, if_neg h2]

/-- Witness for C6 (amended) at the spec's own example inputs. -/
theorem c6_witness :
    V1.buildSearchQuery "alice" V1.PRTypeCreated =
      .ok ("is:open+is:pr+archived:false+author:" ++ "alice") ∧
    V1.buildSearchQuery "alice" V1.PRTypeRequested =
      .ok ("is:open+is:pr+archived:false+user-review-requested:" ++ "alice") ∧
    V1.buildSearchQuery "alice" "review-requested" =
      .error ("unsupported PR type: " ++ "review-requested") :=
  c6_buildSearchQuery "alice" "review-requested" (by decide) (by decide)

/-- C5 counterexample: a user whose login is present but equal to the
empty string is accepted by both identity functions — they return
`ok ""` instead of the identity-resolution error the claim requires,
so startup proceeds (and search calls are then issued with the empty
account). -/
theorem c5_counterexample :
    V1.getAccountName (.ok ⟨some ""⟩) = .ok "" ∧
    V2.fetchGitHubUsername (.ok ⟨some ""⟩) = .ok "" :=
  ⟨rfl, rfl⟩

/-- C5 (amended): the identity functions fail exactly when the identity
call itself failed or the login pointer is absent (`nil`); a present
login is returned as the account even when it is the empty string. -/
theorem c5_getAccountName :
    (∀ e, V1.getAccountName (.error e) =
      .error ("failed to get user info: " ++ e)) ∧
    V1.getAccountName (.ok ⟨none⟩) =
      .error "received empty login name from GitHub" ∧
    (∀ l, V1.getAccountName (.ok ⟨some l⟩) = .ok l) ∧
    (∀ e, V2.fetchGitHubUsername (.error e) =
      .error ("failed to fetch user info: " ++ e)) ∧
    V2.fetchGitHubUsername (.ok ⟨none⟩) =
      .error "received empty username from GitHub" ∧
    (∀ l, V2.fetchGitHubUsername (.ok ⟨some l⟩) = .ok l) :=
  ⟨fun _ => rfl, rfl, fun _ => rfl, fun _ => rfl, rfl, fun _ => rfl⟩

/-- C10: for every unsupported category value, both variants' search
operations return the unsupported-category error with an empty call
log — the API client's `Get` is never invoked on this error path. -/
theorem c10_no_network_call
    (get1 : String → Except String IssuesSearchResult)
    (get2 : Context → String → Except String IssuesSearchResult)
    (ctx : Context) (account category : String)
    (h1 : category ≠ V1.PRTypeCreated) (h2 : category ≠ V1.PRTypeRequested) :
    V1.searchIssues get1 account category =
      (.error ("unsupported PR type: " ++ category), []) ∧
    V2.fetchPullRequests get2 ctx account category =
      (.error ("unsupported PR category: " ++ category), []) := by
  constructor
  · simp only [V1.searchIssues, V1.buildSearchQuery]
    rw [if_neg h1, if_neg h2]
  · simp only [V2.fetchPullRequests, V2.buildSearchQuery]
    rw [if_neg (show ¬(category = V2.categoryCreated) from h1),
        if_neg (show ¬(category = V2.categoryReviewer) from h2)]

/-- Witness for C10 at the spec's `"bogus"` category. -/
theorem c10_witness :
    V1.searchIssues getCex "alice" "bogus" =
      (.error ("unsupported PR type: " ++ "bogus"), []) ∧
    V2.fetchPullRequests (fun _ _ => .error "no call expected") ⟨false⟩
        "alice" "bogus" =
      (.error ("unsupported PR category: " ++ "bogus"), []) :=
  c10_no_network_call getCex (fun _ _ => .error "no call expected") ⟨false⟩
    "alice" "bogus" (by decide) (by decide)

/-- C4 (code bug): `githubRESTClient.Get` discards its context
argument — its result is the underlying network call's result for
every context, including one whose deadline has already expired, so
the run deadline never bounds the call and no `DeadlineExceeded` is
ever produced by it. -/
theorem c4_get_ignores_context {α : Type}
    (underlying : String → Except String α) (path : String) :
    (∀ ctx₁ ctx₂ : Context,
      V2.githubRESTClientGet underlying ctx₁ path =
        V2.githubRESTClientGet underlying ctx₂ path) ∧
    V2.githubRESTClientGet underlying ⟨true⟩ path = underlying path :=
  ⟨fun _ _ => rfl, rfl⟩

/-! Row rendering: fail-fast on invalid issue data. -/

theorem displayIssues_eq_printIssues (relTime : Int → String) :
    ∀ issues, V2.displayIssues relTime issues = V1.printIssues relTime issues
  | [] => rfl
  | issue :: rest => by
    simp only [V1.printIssues, V2.displayIssues,
      displayIssues_eq_printIssues relTime rest, truncateString_eq,
      V2.maxTitleLength, V1.titleWidth, V2.maxUpdateLength, V1.updatedWidth]

/-- On a list of valid issues (title and url both present),
`printIssues` emits exactly one row per issue, in order, and no
error. -/
theorem printIssues_valid (relTime : Int → String) :
    ∀ issues, (∀ i ∈ issues, i.title.isSome ∧ i.url.isSome) →
      V1.printIssues relTime issues = (issues.map (rowEvent relTime), none)
  | [], _ => rfl
  | issue :: rest, h => by
    obtain ⟨ht, hu⟩ := h issue (List.mem_cons_self issue rest)
    obtain ⟨t, ht⟩ := Option.isSome_iff_exists.mp ht
    obtain ⟨u, hu⟩ := Option.isSome_iff_exists.mp hu
    have ih := printIssues_valid relTime rest
      (fun i hi => h i (List.mem_cons_of_mem issue hi))
    simp only [V1.printIssues, ht, hu, ih, List.map_cons, rowEvent,
      Option.getD_some]

/-- `printIssues` on a list whose first invalid issue is `bad`: the
rows of the valid issues before `bad` are printed, then the function
stops with the invalid-data error — nothing at or after `bad` is
printed. -/
theorem printIssues_bad (relTime : Int → String) (bad : Issue)
    (rest : List Issue) (hbad : bad.title = none ∨ bad.url = none) :
    ∀ pre, (∀ i ∈ pre, i.title.isSome ∧ i.url.isSome) →
      V1.printIssues relTime (pre ++ bad :: rest) =
        (pre.map (rowEvent relTime), some "received invalid issue data from GitHub")
  | [], _ => by
    rcases hbad with h | h
    · cases hu : bad.url <;>
        simp only [List.nil_append, V1.printIssues, h, hu, List.map_nil]
    · cases ht : bad.title <;>
        simp only [List.nil_append, V1.printIssues, h, ht, List.map_nil]
  | issue :: pre, h => by
    obtain ⟨ht, hu⟩ := h issue (List.mem_cons_self issue pre)
    obtain ⟨t, ht⟩ := Option.isSome_iff_exists.mp ht
    obtain ⟨u, hu⟩ := Option.isSome_iff_exists.mp hu
    have ih := printIssues_bad relTime bad rest hbad pre
      (fun i hi => h i (List.mem_cons_of_mem issue hi))
    simp only [List.cons_append, V1.printIssues, ht, hu, List.map_cons,
      rowEvent, Option.getD_some, List.append_eq, ih]

/-- C7: for every batch in which an invalid issue (absent title or
url) occurs, both variants' row renderers fail with the
invalid-issue-data error; the rows of the valid issues before the
first invalid one are the only rows printed — nothing at or after it
is printed. -/
theorem c7_invalid_issue_fail_fast (relTime : Int → String)
    (pre : List Issue) (bad : Issue) (rest : List Issue)
    (hpre : ∀ i ∈ pre, i.title.isSome ∧ i.url.isSome)
    (hbad : bad.title = none ∨ bad.url = none) :
    V1.printIssues relTime (pre ++ bad :: rest) =
      (pre.map (rowEvent relTime), some "received invalid issue data from GitHub") ∧
    V2.displayIssues relTime (pre ++ bad :: rest) =
      (pre.map (rowEvent relTime), some "received invalid issue data from GitHub") := by
  have h := printIssues_bad relTime bad rest hbad pre hpre
  exact ⟨h, by rw [displayIssues_eq_printIssues relTime]; exact h⟩

/-- Witness for C7: one valid row before the invalid issue, one valid
issue after it that is never printed. -/
theorem c7_witness :
    V1.printIssues relTime0
        ([⟨some "A", some "urlA", 0⟩] ++ ⟨none, some "urlB", 0⟩ :: [⟨some "C", some "urlC", 0⟩]) =
      ([⟨some "A", some "urlA", 0⟩].map (rowEvent relTime0),
        some "received invalid issue data from GitHub") ∧
    V2.displayIssues relTime0
        ([⟨some "A", some "urlA", 0⟩] ++ ⟨none, some "urlB", 0⟩ :: [⟨some "C", some "urlC", 0⟩]) =
      ([⟨some "A", some "urlA", 0⟩].map (rowEvent relTime0),
        some "received invalid issue data from GitHub") :=
  c7_invalid_issue_fail_fast relTime0 [⟨some "A", some "urlA", 0⟩]
    ⟨none, some "urlB", 0⟩ [⟨some "C", some "urlC", 0⟩] (by decide) (by decide)

/-! Orchestration: error propagation and rendering order. -/

/-- C2 counterexample: when the review-requested fetch result arrives
first on the channel (both fetches successful), the concurrent `Run`
prints the review-requested table first — the canonical created-first
order is not restored. -/
theorem c2_counterexample :
    (∀ r ∈ arrivalCex, r.error = none) ∧
    sectionLabels (V2.Run relTime0 "alice" arrivalCex).1 =
      ["Review Requests for", "Pull Requests Created by"] ∧
    sectionLabels (V2.Run relTime0 "alice" arrivalCex).1 ≠
      ["Pull Requests Created by", "Review Requests for"] := by
  exact ⟨by decide, by decide, by decide⟩

theorem sectionLabels_append (a b : List Event) :
    sectionLabels (a ++ b) = sectionLabels a ++ sectionLabels b := by
  induction a with
  | nil => rfl
  | cons e rest ih => cases e <;> simp [sectionLabels, ih]

theorem sectionLabels_map_rowEvent (relTime : Int → String) (issues : List Issue) :
    sectionLabels (issues.map (rowEvent relTime)) = [] := by
  induction issues with
  | nil => rfl
  | cons i rest ih => simp [rowEvent, sectionLabels, ih]

/-- For a supported category and valid issues, `displayPullRequests`
succeeds and its output contains exactly one section header, labelled
by the category. -/
theorem displayPullRequests_ok (relTime : Int → String) (username : String)
    (issues : List Issue) (category : String)
    (hcat : category = V2.categoryCreated ∨ category = V2.categoryReviewer)
    (hvalid : ∀ i ∈ issues, i.title.isSome ∧ i.url.isSome) :
    (V2.displayPullRequests relTime username issues category).2 = none ∧
    sectionLabels (V2.displayPullRequests relTime username issues category).1 =
      [labelOf category] := by
  have hrows : V2.displayIssues relTime issues = (issues.map (rowEvent relTime), none) := by
    rw [displayIssues_eq_printIssues relTime]
    exact printIssues_valid relTime issues hvalid
  rcases hcat with hc | hc <;> subst hc <;>
    by_cases hlen : issues.length = 0 <;>
    simp [V2.displayPullRequests, V2.displaySectionHeader, hlen, hrows,
      sectionLabels, sectionLabels_append, sectionLabels_map_rowEvent,
      labelOf, V2.categoryCreated, V2.categoryReviewer]

/-- The concurrent `Run` on an arrival list whose first errored result
is `badRes`: every batch received before it has been rendered (one
section header each, in arrival order), the loop stops at `badRes`
with the wrapped fetch error, and the results after it are never
rendered. -/
theorem v2Run_first_error (relTime : Int → String) (username : String)
    (badRes : V2.AsyncPRResult) (e : String) (hbad : badRes.error = some e)
    (rest : List V2.AsyncPRResult) :
    ∀ good : List V2.AsyncPRResult,
      (∀ r ∈ good, r.error = none ∧
        (r.category = V2.categoryCreated ∨ r.category = V2.categoryReviewer) ∧
        ∀ i ∈ r.issues, i.title.isSome ∧ i.url.isSome) →
      (V2.Run relTime username (good ++ badRes :: rest)).2 =
        some ("error fetching " ++ badRes.category ++ " PRs: " ++ e) ∧
      sectionLabels (V2.Run relTime username (good ++ badRes :: rest)).1 =
        good.map (fun r => labelOf r.category)
  | [], _ => by
    simp [V2.Run, hbad, sectionLabels]
  | r :: good, h => by
    obtain ⟨herr, hcat, hvalid⟩ := h r (List.mem_cons_self r good)
    obtain ⟨ih1, ih2⟩ := v2Run_first_error relTime username badRes e hbad rest good
      (fun x hx => h x (List.mem_cons_of_mem r hx))
    obtain ⟨hd2, hd1⟩ := displayPullRequests_ok relTime username r.issues r.category
      hcat hvalid
    rcases hd : V2.displayPullRequests relTime username r.issues r.category
      with ⟨evs, err⟩
    rw [hd] at hd1 hd2
    simp only at hd1 hd2
    subst hd2
    simp [V2.Run, herr, hd, sectionLabels_append, hd1, ih1, ih2]

/-- C3 counterexample: in both variants a table is shown although a
fetch failed.  Sequential `Run`: with a client whose created-category
search succeeds (one valid issue) and whose review-requested search
fails, the created table has already been rendered — its section
header is in the output — before the error is returned.  Concurrent
`Run`: with the successful created batch arriving before the failed
review-requested batch, the created table is rendered before the loop
hits the error.  Rendering is therefore not all-or-nothing. -/
theorem c3_counterexample :
    sectionLabels (V1.Run getCex relTime0 "alice").1 =
      ["Pull Requests Created by"] ∧
    (V1.Run getCex relTime0 "alice").2 =
      some "error processing requested PRs: failed to search issues: boom" ∧
    sectionLabels (V2.Run relTime0 "alice" arrivalCex2).1 =
      ["Pull Requests Created by"] ∧
    (V2.Run relTime0 "alice" arrivalCex2).2 =
      some "error fetching requested PRs: boom" := by
  exact ⟨by decide, by decide, by decide, by decide⟩

/-- C3 (amended): in both variants, when at least one category fails,
`Run` returns an error (the process exits non-zero), stopping at the
first failing category in processing order — sequentially, the fixed
created-then-requested order; concurrently, channel arrival order.
The categories processed successfully before the failure have already
been rendered, and nothing is rendered for or after the failing
category beyond its own partial output. -/
theorem c3_fail_fast (get : String → Except String IssuesSearchResult)
    (relTime : Int → String) (account : String)
    (h : (V1.processAndDisplayPRs get relTime account V1.PRTypeCreated).2.isSome ∨
         (V1.processAndDisplayPRs get relTime account V1.PRTypeRequested).2.isSome)
    (badRes : V2.AsyncPRResult) (e : String) (hbad : badRes.error = some e)
    (good rest : List V2.AsyncPRResult)
    (hgood : ∀ r ∈ good, r.error = none ∧
      (r.category = V2.categoryCreated ∨ r.category = V2.categoryReviewer) ∧
      ∀ i ∈ r.issues, i.title.isSome ∧ i.url.isSome) :
    (V1.Run get relTime account).2.isSome ∧
    (V1.Run get relTime account).1 =
      (V1.processAndDisplayPRs get relTime account V1.PRTypeCreated).1 ++
        (if (V1.processAndDisplayPRs get relTime account V1.PRTypeCreated).2.isSome
          then []
          else (V1.processAndDisplayPRs get relTime account V1.PRTypeRequested).1) ∧
    (V2.Run relTime account (good ++ badRes :: rest)).2 =
      some ("error fetching " ++ badRes.category ++ " PRs: " ++ e) ∧
    sectionLabels (V2.Run relTime account (good ++ badRes :: rest)).1 =
      good.map (fun r => labelOf r.category) := by
  obtain ⟨hc1, hc2⟩ := v2Run_first_error relTime account badRes e hbad rest good hgood
  refine ?_
  rcases h1 : V1.processAndDisplayPRs get relTime account V1.PRTypeCreated
    with ⟨evs1, err1⟩
  rcases h2 : V1.processAndDisplayPRs get relTime account V1.PRTypeRequested
    with ⟨evs2, err2⟩
  rw [h1, h2] at h
  cases err1 with
  | some e1 =>
    simp only [V1.Run, V1.runLoop, h1]
    simp [hc1, hc2]
  | none =>
    cases err2 with
    | some e2 =>
      simp only [V1.Run, V1.runLoop, h1, h2]
      simp [hc1, hc2]
    | none => simp at h

/-- Witness for C3 (amended): the concrete failing client for the
sequential variant and the concrete created-then-failed-requested
arrival order for the concurrent variant. -/
theorem c3_witness :
    (V1.Run getCex relTime0 "alice").2.isSome ∧
    (V1.Run getCex relTime0 "alice").1 =
      (V1.processAndDisplayPRs getCex relTime0 "alice" V1.PRTypeCreated).1 ++
        (if (V1.processAndDisplayPRs getCex relTime0 "alice" V1.PRTypeCreated).2.isSome
          then []
          else (V1.processAndDisplayPRs getCex relTime0 "alice" V1.PRTypeRequested).1) ∧
    (V2.Run relTime0 "alice" arrivalCex2).2 =
      some ("error fetching " ++ "requested" ++ " PRs: " ++ "boom") ∧
    sectionLabels (V2.Run relTime0 "alice" arrivalCex2).1 =
      ["Pull Requests Created by"] :=
  c3_fail_fast getCex relTime0 "alice" (Or.inr (by decide))
    ⟨[], "requested", some "boom"⟩ "boom" (by decide)
    [⟨[⟨some "Test PR", some "https://example.com/pull/1", 0⟩], "created", none⟩] []
    (by decide)

/-- C2 (amended): the concurrent `Run` renders tables in channel
arrival order, not canonical order: for every arrival order of
successful, valid, supported-category batches, every batch's table is
rendered and the section headers appear exactly in arrival order. -/
theorem c2_arrival_order (relTime : Int → String) (username : String) :
    ∀ (arrival : List V2.AsyncPRResult),
      (∀ r ∈ arrival, r.error = none ∧
        (r.category = V2.categoryCreated ∨ r.category = V2.categoryReviewer) ∧
        ∀ i ∈ r.issues, i.title.isSome ∧ i.url.isSome) →
      (V2.Run relTime username arrival).2 = none ∧
      sectionLabels (V2.Run relTime username arrival).1 =
        arrival.map (fun r => labelOf r.category)
  | [], _ => ⟨rfl, rfl⟩
  | r :: rest, h => by
    obtain ⟨herr, hcat, hvalid⟩ := h r (List.mem_cons_self r rest)
    obtain ⟨ih1, ih2⟩ := c2_arrival_order relTime username rest
      (fun x hx => h x (List.mem_cons_of_mem r hx))
    obtain ⟨hd2, hd1⟩ := displayPullRequests_ok relTime username r.issues r.category
      hcat hvalid
    rcases hd : V2.displayPullRequests relTime username r.issues r.category
      with ⟨evs, err⟩
    rw [hd] at hd1 hd2
    simp only at hd1 hd2
    subst hd2
    simp [V2.Run, herr, hd, List.map_cons, sectionLabels_append, hd1,
      ih1, ih2]

/-- Witness for C2 (amended) at the reversed arrival order. -/
theorem c2_witness :
    (V2.Run relTime0 "alice" arrivalCex).2 = none ∧
    sectionLabels (V2.Run relTime0 "alice" arrivalCex).1 =
      arrivalCex.map (fun r => labelOf r.category) :=
  c2_arrival_order relTime0 "alice" arrivalCex (by decide)
